import Mathlib

/-!
Verification development for the monitoring-stack repository: three Express
microservices (user, product, order) over MongoDB with an in-process cache.
The definitions below are a shallow embedding of the handlers in
src/unnamed/part_001 (user service), the product-service application and the
order-service application.  JavaScript numbers that the handlers treat as
integers are modelled as Int (stock, quantities) or Nat (pagination);
MongoDB Date fields (createdAt, updatedAt) do not affect any property below
and are not modelled.  Fallible paths return explicit result constructors
mirroring the HTTP status and error body produced by the source.
-/

namespace MonStack

/-! ### The in-process cache

Both the user service and the product service declare the cache as a plain
JavaScript Map: `const cache = new Map()`.  Every call site passes a third
TTL argument, e.g. `cache.set(cacheKey, user, 300000)` with the comment
"Cache for 5 minutes", but `Map.prototype.set` takes only key and value:
the TTL argument is silently discarded, and `cache.get` performs no expiry
check anywhere in the source.  The model therefore stores only key/value
pairs, and `cacheSet` accepts and drops the TTL argument exactly as the
Map API does. -/

/-- Association-list model of a JavaScript Map with string keys. -/
def JsMap (α : Type) : Type := List (String × α)

/-- The empty Map, `new Map()`. -/
def JsMap.empty {α : Type} : JsMap α := []

/-- Model of `cache.get(k)`: returns the stored value or undefined (none).
No expiry check is made: the result does not depend on the current time. -/
def JsMap.get {α : Type} (m : JsMap α) (k : String) : Option α :=
  (List.find? (fun p => p.1 = k) m).map (fun p => p.2)

/-- Model of `cache.set(k, v, ttlMillis)`: stores the pair.  The third argument is
accepted at every call site of the source but is not part of the
`Map.prototype.set` API, so it does not enter the state. -/
def JsMap.set {α : Type} (m : JsMap α) (k : String) (v : α)
    (_ttlMillis : Nat) : JsMap α :=
  (k, v) :: List.filter (fun p => ¬ p.1 = k) m

/-- Model of `cache.clear()`. -/
def JsMap.clear {α : Type} (_ : JsMap α) : JsMap α := []

/-- Reading the cache at a wall-clock instant `now` (milliseconds).  The
source's `cache.get` takes no time argument and makes no staleness check,
so the read is independent of `now`; this wrapper only makes that explicit
so time-indexed properties can be stated. -/
def JsMap.getAtTime {α : Type} (m : JsMap α) (k : String) (_now : Nat) :
    Option α :=
  m.get k

/-! ### User service: data model

A stored user document, as inserted by POST /api/users/register:
`{name, email, password: hashedPassword, status: "active", createdAt,
updatedAt}` plus the server-assigned `_id`.  `name` and `email` come
straight from the request body, so a field missing from the body is stored
as absent (Option).  The `password` field always holds the bcrypt hash. -/

structure UserDoc where
  id : String
  name : Option String
  email : Option String
  password : String
  status : String
  deriving Repr, DecidableEq

/-- The projected document produced by `projection: { password: 0 }`. -/
structure UserView where
  id : String
  name : Option String
  email : Option String
  status : String
  deriving Repr, DecidableEq

/-- Dropping the password field, as the MongoDB projection does. -/
def UserDoc.project (u : UserDoc) : UserView :=
  ⟨u.id, u.name, u.email, u.status⟩

/-- Values the user service stores in its cache: the login handler caches
the raw user document (`cache.set(cacheKey, user, 300000)` with `user`
straight from `findOne`), the read-by-id handler caches the projected
document, and the list handler caches a page of projected documents and
the total count. -/
inductive UserCacheVal where
  | fullUser (u : UserDoc)
  | userView (v : UserView)
  | viewPage (l : List UserView)
  | natVal (n : Nat)
  deriving Repr, DecidableEq

/-- Model of `bcrypt.hash(p, 10)`: an injective function of the plaintext.
Only the round-trip property matters to the handlers: `bcrypt.compare`
succeeds exactly on the hashed plaintext. -/
def bcryptHash (p : String) : String := String.append "bcrypt$10$" p

/-- Model of `bcrypt.compare(p, h)`. -/
def bcryptCompare (p h : String) : Bool := bcryptHash p = h

/-- The query `db.collection("users").findOne({ email })`.  The body field `email`
may be undefined, in which case the driver-serialised query `{email: null}`
matches documents whose email is null or missing, which the Option equality
captures. -/
def findUserByEmail (users : List UserDoc) (email : Option String) :
    Option UserDoc :=
  List.find? (fun u => u.email = email) users

/-- The query `db.collection("users").findOne({ _id: new ObjectId(id) }, ...)`. -/
def findUserById (users : List UserDoc) (id : String) : Option UserDoc :=
  List.find? (fun u => u.id = id) users

/-- Validity test for `new ObjectId(id)`: it succeeds only on a 24-character hex string (or other
forms no route of this service produces); anything else throws, which the
surrounding try/catch turns into a 500 response. -/
def isValidObjectId (s : String) : Bool :=
  s.length = 24 && s.toList.all (fun c => c.isDigit || (c ≥ 'a' && c ≤ 'f'))

/-! ### User service: POST /api/users/register -/

/-- Outcome of POST /api/users/register.
`created`: 201 {success, message, userId};
`userExists`: 400 {error: "User already exists"} — the Conflict rejection;
`serverError`: 500 {error} (e.g. bcrypt.hash rejects when the password
field is undefined). -/
inductive RegisterResult where
  | created (userId : String)
  | userExists
  | serverError
  deriving Repr, DecidableEq

/-- POST /api/users/register.  The handler destructures
`{name, email, password}` from the body with no required-field validation,
checks email uniqueness via findOne, hashes the password and inserts.
`newId` is the server-assigned ObjectId of the insert. -/
def register (users : List UserDoc) (newId : String)
    (name email password : Option String) :
    RegisterResult × List UserDoc :=
  match findUserByEmail users email with
  | some _ => (.userExists, users)
  | none =>
    match password with
    | none => (.serverError, users)
    | some p =>
      (.created newId,
       users ++ [⟨newId, name, email, bcryptHash p, "active"⟩])

/-! ### User service: POST /api/users/login -/

/-- Outcome of POST /api/users/login.
`ok`: 200 with a signed token carrying {userId, email};
`unauthorized`: 401 {error: "Invalid credentials"};
`serverError`: 500 (e.g. the cached value under the key is not a user
document, so `user.password` is undefined and bcrypt.compare rejects). -/
inductive LoginResult where
  | ok (userId : String) (email : Option String)
  | unauthorized
  | serverError
  deriving Repr, DecidableEq

/-- POST /api/users/login.  Checks the cache under key `user:<email>`; on a
miss, fetches by email and — when found — caches the full document (with
its password hash) for 300000 ms BEFORE the password is checked.  Only then
is bcrypt.compare consulted; a mismatch returns 401 with the cache left as
populated. -/
def login (users : List UserDoc) (cache : JsMap UserCacheVal)
    (email password : String) :
    LoginResult × JsMap UserCacheVal :=
  let cacheKey := String.append "user:" email
  match cache.get cacheKey with
  | some (.fullUser u) =>
    if bcryptCompare password u.password then (.ok u.id u.email, cache)
    else (.unauthorized, cache)
  | some _ =>
    -- a cached non-document value has no password field; bcrypt.compare
    -- rejects on undefined and the catch block returns 500
    (.serverError, cache)
  | none =>
    match findUserByEmail users (some email) with
    | none => (.unauthorized, cache)
    | some u =>
      let cache' := cache.set cacheKey (.fullUser u) 300000
      if bcryptCompare password u.password then (.ok u.id u.email, cache')
      else (.unauthorized, cache')

/-! ### User service: GET /api/users/:id -/

/-- Outcome of GET /api/users/:id.  On a cache hit the handler returns
whatever value was cached (`data: user`), so the response payload is a
`UserCacheVal`; on a miss it returns the projected document. -/
inductive GetUserResult where
  | ok (data : UserCacheVal)
  | notFound
  | serverError
  deriving Repr, DecidableEq

/-- Whether a response payload contains the stored password hash. -/
def UserCacheVal.hasPassword : UserCacheVal → Bool
  | .fullUser _ => true
  | _ => false

/-- GET /api/users/:id.  Checks the cache under key `user:<id>` FIRST; a
hit returns the cached value as-is.  Only on a miss does the handler build
`new ObjectId(id)` (throwing — 500 — on a non-ObjectId string) and fetch
with `projection: {password: 0}`, caching the projected document for
120000 ms. -/
def getUserById (users : List UserDoc) (cache : JsMap UserCacheVal)
    (id : String) : GetUserResult × JsMap UserCacheVal :=
  let cacheKey := String.append "user:" id
  match cache.get cacheKey with
  | some v => (.ok v, cache)
  | none =>
    if isValidObjectId id then
      match findUserById users id with
      | none => (.notFound, cache)
      | some u =>
        let cache' := cache.set cacheKey (.userView u.project) 120000
        (.ok (.userView u.project), cache')
    else
      (.serverError, cache)

/-! ### Product service: data model -/

/-- A stored product document, as inserted by POST /api/products:
`{name, price: parseFloat(price), category, stock: parseInt(stock) || 0,
description: description || "", createdAt, updatedAt}` plus the
server-assigned `_id`.  Prices and stock are JavaScript numbers that every
handler treats as integers-or-decimals; stock in particular is read and
written with integer arithmetic and may go negative, so it is an Int. -/
structure Product where
  id : String
  name : String
  price : Int
  category : String
  stock : Int
  descr : String
  deriving Repr, DecidableEq

/-- The query `db.collection("products").findOne({ _id: new ObjectId(id) })`. -/
def findProductById (products : List Product) (id : String) :
    Option Product :=
  List.find? (fun p => p.id = id) products

/-- The category filter `category ? { category } : {}` of the list query. -/
def matchesCategory (category : Option String) (p : Product) : Bool :=
  match category with
  | none => true
  | some c => p.category = c

/-- Comparison on the field named by the `sort` query parameter, for
`.sort({ [sort]: sortOrder })`.  A field name outside the document schema
compares missing values, leaving the order unchanged. -/
def productFieldLe (sort : String) (a b : Product) : Bool :=
  if sort = "price" then a.price ≤ b.price
  else if sort = "category" then decide (a.category ≤ b.category)
  else if sort = "stock" then a.stock ≤ b.stock
  else if sort = "description" then decide (a.descr ≤ b.descr)
  else if sort = "name" then decide (a.name ≤ b.name)
  else true

/-- The find/sort/skip/limit pipeline of GET /api/products. -/
def queryProducts (products : List Product) (category : Option String)
    (sort order : String) (skip limit : Nat) : List Product :=
  let filtered := List.filter (matchesCategory category) products
  let le := fun a b =>
    if order = "desc" then productFieldLe sort b a else productFieldLe sort a b
  ((filtered.mergeSort le).drop skip).take limit

/-- The count `db.collection("products").countDocuments(query)`. -/
def countProducts (products : List Product) (category : Option String) :
    Nat :=
  (List.filter (matchesCategory category) products).length

/-! ### Product service: POST /api/products -/

/-- Outcome of POST /api/products.
`created`: 201 {success, message, productId, product};
`missingFields`: 400 {error: "Missing required fields"} — a single fixed
message, whichever required fields are absent. -/
inductive CreateProductResult where
  | created (productId : String) (product : Product)
  | missingFields
  deriving Repr, DecidableEq

/-- POST /api/products.  `if (!name || !price || !category)` rejects when
any of the three is undefined, an empty string, or the number 0; otherwise
the document is inserted with `stock: parseInt(stock) || 0` and
`description: description || ""`, and the cache is cleared. -/
def createProduct (products : List Product) (newId : String)
    (name : Option String) (price : Option Int) (category : Option String)
    (stock : Option Int) (descr : Option String) :
    CreateProductResult × List Product :=
  match name, price, category with
  | some n, some pr, some c =>
    if n = "" ∨ pr = 0 ∨ c = "" then (.missingFields, products)
    else
      let product : Product :=
        ⟨newId, n, pr, c, (stock.getD 0), (descr.getD "")⟩
      (.created newId product, products ++ [product])
  | _, _, _ => (.missingFields, products)

/-! ### Product service: PUT /api/products/:id/stock -/

/-- Outcome of PUT /api/products/:id/stock.
`ok`: 200 {success, message: "Stock updated successfully"};
`notANumber`: 400 {error: "Quantity must be a number"};
`notFound`: 404 {error: "Product not found"}. -/
inductive UpdateStockResult where
  | ok
  | notANumber
  | notFound
  deriving Repr, DecidableEq

/-- PUT /api/products/:id/stock.  After the typeof-number check, the
handler runs an UNCONDITIONAL `updateOne({_id}, {$inc: {stock: quantity}})`
— no guard on the current stock and no sign restriction on `quantity`
(the order service calls this route with negative quantities to decrement
stock).  `modifiedCount = 0` (no matching document) yields 404. -/
def updateStock (products : List Product) (id : String)
    (quantity : Option Int) : UpdateStockResult × List Product :=
  match quantity with
  | none => (.notANumber, products)
  | some q =>
    match findProductById products id with
    | none => (.notFound, products)
    | some _ =>
      let products' := List.map
        (fun p => if p.id = id then { p with stock := p.stock + q } else p)
        products
      (.ok, products')

/-! ### Product service: POST /api/products/:id/purchase -/

/-- Outcome of POST /api/products/:id/purchase.
`success`: 200 {success, remainingStock} — remainingStock is computed from
the stock value the handler READ, not from the written document;
`notFound`: 404;
`insufficientStock`: 400 {error: "Insufficient stock", available,
requested} — from the check against the read stock;
`failedToProcess`: 400 {error: "Failed to process purchase"} — the
conditional update matched no document (its guard failed at write time). -/
inductive PurchaseResult where
  | success (remainingStock : Int)
  | notFound
  | insufficientStock (available requested : Int)
  | failedToProcess
  deriving Repr, DecidableEq

/-- The storage write of the purchase handler on one document:
`updateOne({_id, stock: {$gte: quantity}}, {$inc: {stock: -quantity}})`.
Returns whether a document was modified, and the new stock value.  The
decrement happens only if the CURRENT stock is at least the quantity, in
the same atomic operation. -/
def conditionalDecrement (stock q : Int) : Bool × Int :=
  if q ≤ stock then (true, stock - q) else (false, stock)

/-- POST /api/products/:id/purchase, run in isolation (no interleaved
writer between its findOne and its updateOne): read the product, reject on
insufficient read stock, then perform the conditional compare-and-decrement
write.  `remainingStock` in the response is `product.stock - quantity`
using the read value. -/
def purchase (products : List Product) (id : String) (quantity : Int) :
    PurchaseResult × List Product :=
  match findProductById products id with
  | none => (.notFound, products)
  | some product =>
    if product.stock < quantity then
      (.insufficientStock product.stock quantity, products)
    else
      let w := conditionalDecrement product.stock quantity
      if w.1 then
        let products' := List.map
          (fun p => if p.id = id then { p with stock := w.2 } else p)
          products
        (.success (product.stock - quantity), products')
      else (.failedToProcess, products)

/-! ### Product service: GET /api/products (cached list) -/

/-- What the list handler stores in the cache on a miss:
`cache.set(cacheKey, { products, totalProducts }, 30000)` — a wrapper
object holding the page array and the total count, NOT the bare array. -/
inductive ProductListCacheVal where
  | wrapper (products : List Product) (totalProducts : Nat)
  deriving Repr, DecidableEq

/-- The list cache key:
`products:<category or all>:page:<page>:limit:<limit>:sort:<sort>:order:<order>`. -/
def productsCacheKey (category : Option String) (page limit : Nat)
    (sort order : String) : String :=
  "products:" ++ (category.getD "all") ++ ":page:" ++ toString page ++
    ":limit:" ++ toString limit ++ ":sort:" ++ sort ++ ":order:" ++ order

/-- Outcome of GET /api/products.
`ok`: 200 {success, data, pagination: {page, limit, total, pages}} — on
the miss path `total` is `totalProducts || products.totalProducts`, which
is undefined (`none`) when the count is 0, making `pages` NaN (`none`);
`typeErr`: 500 {error} from a thrown TypeError caught by the handler. -/
inductive GetProductsResult where
  | ok (data : List Product) (page limit : Nat) (total pages : Option Nat)
  | typeErr (msg : String)
  deriving Repr, DecidableEq

/-- GET /api/products.  On a cache hit the local variable `products` holds
the cached WRAPPER object `{products, totalProducts}`; the handler then
calls `products.forEach(...)`, which is not a function on that object, so
the hit path throws a TypeError that the catch block turns into a 500.  On
a miss the handler queries, counts, caches the wrapper for 30000 ms and
returns the envelope built from the array and the count. -/
def getProducts (products : List Product)
    (cache : JsMap ProductListCacheVal) (category : Option String)
    (page limit : Nat) (sort order : String) :
    GetProductsResult × JsMap ProductListCacheVal :=
  let skip := (page - 1) * limit
  let cacheKey := productsCacheKey category page limit sort order
  match cache.get cacheKey with
  | some (.wrapper _ _) =>
    (.typeErr "products.forEach is not a function", cache)
  | none =>
    let ps := queryProducts products category sort order skip limit
    let total := countProducts products category
    let cache' := cache.set cacheKey (.wrapper ps total) 30000
    let totalField : Option Nat := if total = 0 then none else some total
    let pagesField : Option Nat :=
      if total = 0 then none else some ((total + limit - 1) / limit)
    (.ok ps page limit totalField pagesField, cache')

/-! ### Order service: POST /api/orders

The order-creation saga calls out to the user service and the product
service over HTTP.  Those calls are modelled as oracles supplied to the
handler: `userFound` is whether GET /api/users/:userId succeeded, and
`productFetch` maps a productId to the product data returned by
GET /api/products/:id (none = the call failed).  The simulated payment
(`Math.random() > 0.1` after a random delay) is the boolean
`paymentSuccess`.  The best-effort per-item PUT .../stock decrement calls
after the insert go to the product service and are logged-only on failure;
they do not touch the orders collection and are not part of this state. -/

/-- One entry of the request body's items array. -/
structure OrderItemReq where
  productId : String
  quantity : Int
  deriving Repr, DecidableEq

/-- One line of a persisted order document. -/
structure OrderItem where
  productId : String
  name : String
  price : Int
  quantity : Int
  subtotal : Int
  deriving Repr, DecidableEq

/-- A persisted order document (shippingAddress is opaque data copied from
the body and not modelled). -/
structure OrderDoc where
  id : String
  userId : String
  items : List OrderItem
  totalAmount : Int
  currency : String
  paymentMethod : String
  status : String
  deriving Repr, DecidableEq

/-- The domain counters of the order service that POST /api/orders touches:
orders_created_total, orders_failed_total and revenue_total. -/
structure OrderMetrics where
  ordersCreated : Nat
  ordersFailed : Nat
  revenue : Int
  deriving Repr, DecidableEq

/-- Outcome of POST /api/orders.
`created`: 201 with the order;
`invalidOrderData`: 400 {error: "Invalid order data"};
`userNotFound`: 400 {error: "User not found"};
`productNotFound`: 400 naming the product id;
`itemInsufficientStock`: 400 {error: "Insufficient stock for product
<name>", productId, available, requested};
`paymentFailed`: 400 {error: "Payment processing failed"}. -/
inductive CreateOrderResult where
  | created (orderId : String) (order : OrderDoc)
  | invalidOrderData
  | userNotFound
  | productNotFound (productId : String)
  | itemInsufficientStock (name productId : String) (available requested : Int)
  | paymentFailed
  deriving Repr, DecidableEq

/-- The per-item validation loop of the saga: fetch each product, reject
on a failed fetch or on requested quantity exceeding the fetched stock,
otherwise accumulate the order line and its subtotal into the total.  The
first failing item aborts the whole order. -/
def buildOrderItems (productFetch : String → Option Product) :
    List OrderItemReq → Except CreateOrderResult (List OrderItem × Int)
  | [] => .ok ([], 0)
  | item :: rest =>
    match productFetch item.productId with
    | none => .error (.productNotFound item.productId)
    | some product =>
      if product.stock < item.quantity then
        .error (.itemInsufficientStock product.name item.productId
          product.stock item.quantity)
      else
        let itemTotal := product.price * item.quantity
        match buildOrderItems productFetch rest with
        | .error e => .error e
        | .ok (lines, total) =>
          .ok (⟨item.productId, product.name, product.price, item.quantity,
            itemTotal⟩ :: lines, itemTotal + total)

/-- POST /api/orders: validate the payload shape, fetch the user, run the
per-item loop, run the simulated payment, and only then insert the order
with status "pending" and bump orders_created_total and revenue_total.  A
payment failure bumps orders_failed_total, returns 400 and inserts
nothing. -/
def createOrder (orders : List OrderDoc) (metrics : OrderMetrics)
    (newId : String) (userId : Option String)
    (items : Option (List OrderItemReq)) (paymentMethod : Option String)
    (userFound : Bool) (productFetch : String → Option Product)
    (paymentSuccess : Bool) :
    CreateOrderResult × List OrderDoc × OrderMetrics :=
  match userId, items with
  | some uid, some l =>
    if uid = "" ∨ l = [] then (.invalidOrderData, orders, metrics)
    else if ¬userFound then (.userNotFound, orders, metrics)
    else
      match buildOrderItems productFetch l with
      | .error e => (e, orders, metrics)
      | .ok (lines, totalAmount) =>
        if ¬paymentSuccess then
          (.paymentFailed, orders,
           { metrics with ordersFailed := metrics.ordersFailed + 1 })
        else
          let order : OrderDoc :=
            ⟨newId, uid, lines, totalAmount, "USD",
             paymentMethod.getD "credit_card", "pending"⟩
          (.created newId order, orders ++ [order],
           { metrics with
              ordersCreated := metrics.ordersCreated + 1,
              revenue := metrics.revenue + totalAmount })
  | _, _ => (.invalidOrderData, orders, metrics)

/-! ### Order service: GET /health -/

/-- The per-dependency status string in the health response. -/
inductive PeerHealth where
  | healthy
  | unhealthy
  deriving Repr, DecidableEq

/-- Result of `axios.get(peer).then(() => "healthy").catch(() => "unhealthy")`. -/
def peerStatus (reachable : Bool) : PeerHealth :=
  if reachable then .healthy else .unhealthy

/-- The order service's health response:
`{status, service, ..., dependencies: {userService, productService}}` with
HTTP 200, or `{status: "unhealthy", ...}` with HTTP 500 when the local
database ping throws.  Dependencies are reported only on the 200 path. -/
structure OrderHealthResponse where
  httpStatus : Nat
  status : String
  userService : Option PeerHealth
  productService : Option PeerHealth
  deriving Repr, DecidableEq

/-- GET /health of the order service: ping the local database; a throwing
ping is the only path to the 500 "unhealthy" response.  The two peer
probes never throw (each has its own catch mapping failure to the string
"unhealthy"), and their results enter only the dependencies object — the
top-level status is the literal "healthy" whenever the ping succeeded. -/
def orderHealth (dbPing userPeer productPeer : Bool) :
    OrderHealthResponse :=
  if dbPing then
    ⟨200, "healthy", some (peerStatus userPeer), some (peerStatus productPeer)⟩
  else
    ⟨500, "unhealthy", none, none⟩

/-! ### Two concurrent purchases of the same product

The purchase handler performs two storage operations: the `findOne` read
(followed by the pure stock check) and the conditional `updateOne` write.
Between them another request may run its own operations.  The model below
interleaves two purchase requests against one product at the granularity
of those two operations; a schedule is a list of booleans naming which
request performs its next operation. -/

/-- The control point of one in-flight purchase request: before its read,
before its write (holding the stock value it read), or finished. -/
inductive ReqPhase where
  | toRead
  | toWrite (readStock : Int)
  | done (outcome : PurchaseResult)
  deriving Repr, DecidableEq

/-- Shared product stock plus the control points of the two requests. -/
structure RaceState where
  stock : Int
  req1 : ReqPhase
  req2 : ReqPhase
  deriving Repr, DecidableEq

/-- Advance one request by one storage operation against the current
stock.  The read step is the `findOne` plus the in-process
`product.stock < quantity` check (no storage access between them); the
write step is `conditionalDecrement`, whose guard re-checks the CURRENT
stock atomically.  A write whose guard fails (modifiedCount 0) produces
the 400 "Failed to process purchase" response.  A successful write reports
`remainingStock` from the stock value the request READ. -/
def purchaseStep (stock q : Int) : ReqPhase → ReqPhase × Int
  | .toRead =>
    if stock < q then (.done (.insufficientStock stock q), stock)
    else (.toWrite stock, stock)
  | .toWrite readStock =>
    let w := conditionalDecrement stock q
    if w.1 then (.done (.success (readStock - q)), w.2)
    else (.done .failedToProcess, stock)
  | .done o => (.done o, stock)

/-- One scheduler step: request 1 (true) or request 2 (false) performs its
next storage operation. -/
def raceStep (q1 q2 : Int) (s : RaceState) (which : Bool) : RaceState :=
  if which then
    let r := purchaseStep s.stock q1 s.req1
    ⟨r.2, r.1, s.req2⟩
  else
    let r := purchaseStep s.stock q2 s.req2
    ⟨r.2, s.req1, r.1⟩

/-- Run a schedule from a state. -/
def raceRun (q1 q2 : Int) (s : RaceState) (sched : List Bool) : RaceState :=
  sched.foldl (raceStep q1 q2) s

/-- The scenario of the spec: one product with stock 10, two purchase
requests of quantity 6 each, both yet to run. -/
def raceStart : RaceState := ⟨10, .toRead, .toRead⟩

/-- Request finished with a 200 success. -/
def ReqPhase.isSuccess : ReqPhase → Bool
  | .done (.success _) => true
  | _ => false

/-- Request finished. -/
def ReqPhase.isDone : ReqPhase → Bool
  | .done _ => true
  | _ => false

/-- Request finished with one of the two 400 rejection bodies the purchase
handler can produce: "Insufficient stock" or "Failed to process purchase". -/
def ReqPhase.isRejected400 : ReqPhase → Bool
  | .done (.insufficientStock _ _) => true
  | .done .failedToProcess => true
  | _ => false

/-- Every state reachable from `raceStart` under schedules of the
stock-10, quantity-6/6 scenario. -/
def raceReachable : List RaceState :=
  [⟨10, .toRead, .toRead⟩,
   ⟨10, .toWrite 10, .toRead⟩,
   ⟨10, .toRead, .toWrite 10⟩,
   ⟨10, .toWrite 10, .toWrite 10⟩,
   ⟨4, .done (.success 4), .toRead⟩,
   ⟨4, .toRead, .done (.success 4)⟩,
   ⟨4, .done (.success 4), .toWrite 10⟩,
   ⟨4, .toWrite 10, .done (.success 4)⟩,
   ⟨4, .done (.success 4), .done (.insufficientStock 4 6)⟩,
   ⟨4, .done (.insufficientStock 4 6), .done (.success 4)⟩,
   ⟨4, .done (.success 4), .done .failedToProcess⟩,
   ⟨4, .done .failedToProcess, .done (.success 4)⟩]

/-- The safety property of the scenario: stock is never negative, the two
requests never both succeed, and once both are finished exactly one
succeeded, the other holds a 400 rejection, and the stock is 4. -/
def racePropHolds (s : RaceState) : Bool :=
  (0 ≤ s.stock) &&
  !(s.req1.isSuccess && s.req2.isSuccess) &&
  (!(s.req1.isDone && s.req2.isDone) ||
    (((s.req1.isSuccess && s.req2.isRejected400) ||
      (s.req2.isSuccess && s.req1.isRejected400)) && s.stock = 4))

/-! ## Theorems -/

/-! ### Shared helper lemmas -/

/-- Reading back the key just written to the Map. -/
theorem JsMap.get_set {α : Type} (m : JsMap α) (k : String) (v : α)
    (t : Nat) : (m.set k v t).get k = some v := by
  simp [JsMap.get, JsMap.set, List.find?]

/-- Stock nonnegativity of a whole products collection, as a decidable
check. -/
def allStockNonneg (products : List Product) : Bool :=
  products.all (fun p => 0 ≤ p.stock)

/-- The race scenario's start state is in the reachable set. -/
theorem raceStart_mem_reachable : raceStart ∈ raceReachable := by decide

/-- The reachable set of the stock-10, quantity-6/6 scenario is closed
under scheduler steps. -/
theorem raceReachable_closed :
    ∀ s ∈ raceReachable, ∀ b : Bool, raceStep 6 6 s b ∈ raceReachable := by
  decide

/-- Every reachable state of the scenario satisfies the safety property. -/
theorem raceReachable_safe :
    ∀ s ∈ raceReachable, racePropHolds s = true := by decide

/-- Running any schedule from a reachable state stays in the reachable
set. -/
theorem raceRun_mem_reachable (sched : List Bool) :
    ∀ s ∈ raceReachable, raceRun 6 6 s sched ∈ raceReachable := by
  induction sched with
  | nil => exact fun s hs => hs
  | cons b rest ih =>
    intro s hs
    exact ih _ (raceReachable_closed s hs b)

/-! ### C1: stock nonnegativity -/

/-- C1 counterexample: the claim says no decrement is applied unless the
current stock is at least the decremented quantity at write time, across
all product-service operations including PUT /api/products/:id/stock with
any numeric quantity.  But that route's updateOne applies its $inc
unconditionally: on a product with stock 10, quantity -11 (a decrement of
11, exceeding the available 10) is accepted with a 200 and leaves the
stored stock at -1, a negative value. -/
theorem updateStock_goes_negative :
    updateStock [⟨"p1", "Laptop", 999, "electronics", 10, ""⟩] "p1"
        (some (-11)) =
      (.ok, [⟨"p1", "Laptop", 999, "electronics", -1, ""⟩]) := by
  decide

/-- C1 (amended): the purchase endpoint's decrement is conditioned on
sufficient stock at write time (the conditional compare-and-decrement), so
POST /api/products/:id/purchase preserves nonnegativity of every product's
stock; PUT /api/products/:id/stock, which the order service's decrement
calls use, has no such guard. -/
theorem purchase_preserves_stock_nonneg (products : List Product)
    (id : String) (q : Int) (h : allStockNonneg products = true) :
    allStockNonneg (purchase products id q).2 = true := by
  simp only [allStockNonneg, List.all_eq_true, decide_eq_true_eq] at h ⊢
  unfold purchase
  cases hfind : findProductById products id with
  | none => simpa using h
  | some product =>
    by_cases hlt : product.stock < q
    · simpa [hlt] using h
    · have hq : q ≤ product.stock := not_lt.mp hlt
      simp only [hlt, if_false, conditionalDecrement, hq, if_true]
      intro p hp
      rcases List.mem_map.mp hp with ⟨p0, hp0, rfl⟩
      by_cases hid : p0.id = id
      · simp only [hid, if_true]
        omega
      · simpa [hid] using h p0 hp0

/-- C1 witness: a concrete purchase of quantity 3 from stock 10 keeps
every stock nonnegative. -/
theorem purchase_preserves_stock_nonneg_witness :
    allStockNonneg
      (purchase [⟨"p1", "Laptop", 999, "electronics", 10, ""⟩] "p1" 3).2 =
      true :=
  purchase_preserves_stock_nonneg _ "p1" 3 (by decide)

/-! ### C2: two concurrent purchases -/

/-- C2 counterexample: with stock 10 and two concurrent purchases of
quantity 6, under the interleaving read1, read2, write1, write2 both reads
see stock 10 and pass the check; request 1's conditional write succeeds
and request 2's conditional write matches no document, so request 2 is
rejected with the 400 body "Failed to process purchase" — not the
"Insufficient stock" rejection the claim names. -/
theorem purchase_race_rejection_not_insufficient :
    raceRun 6 6 raceStart [true, false, true, false] =
      ⟨4, .done (.success 4), .done .failedToProcess⟩ := by decide

/-- C2 (amended): for every interleaving of the two purchase requests
(stock 10, quantity 6 each) at the granularity of their two storage
operations, the stock never goes negative, the two requests never both
succeed, and once both complete exactly one succeeded while the other was
rejected with a 400 (either "Insufficient stock" or, when its read
preceded the winner's write, "Failed to process purchase") and the final
stock is 4.  The storage write is the atomic compare-and-decrement
`conditionalDecrement`, never an unconditional write. -/
theorem purchase_race_exactly_one_success (sched : List Bool) :
    0 ≤ (raceRun 6 6 raceStart sched).stock ∧
    ¬((raceRun 6 6 raceStart sched).req1.isSuccess = true ∧
      (raceRun 6 6 raceStart sched).req2.isSuccess = true) ∧
    ((raceRun 6 6 raceStart sched).req1.isDone = true →
     (raceRun 6 6 raceStart sched).req2.isDone = true →
      (((raceRun 6 6 raceStart sched).req1.isSuccess = true ∧
        (raceRun 6 6 raceStart sched).req2.isRejected400 = true) ∨
       ((raceRun 6 6 raceStart sched).req2.isSuccess = true ∧
        (raceRun 6 6 raceStart sched).req1.isRejected400 = true)) ∧
      (raceRun 6 6 raceStart sched).stock = 4) := by
  have hmem := raceRun_mem_reachable sched raceStart raceStart_mem_reachable
  generalize hgen : raceRun 6 6 raceStart sched = s at hmem ⊢
  fin_cases hmem <;> decide

/-- C2 witness: under the schedule where request 1 runs to completion
first, request 1 succeeds, request 2 is rejected with "Insufficient
stock", and the final stock is 4. -/
theorem purchase_race_exactly_one_success_witness :
    (((raceRun 6 6 raceStart [true, true, false, false]).req1.isSuccess = true ∧
      (raceRun 6 6 raceStart [true, true, false, false]).req2.isRejected400 = true) ∨
     ((raceRun 6 6 raceStart [true, true, false, false]).req2.isSuccess = true ∧
      (raceRun 6 6 raceStart [true, true, false, false]).req1.isRejected400 = true)) ∧
    (raceRun 6 6 raceStart [true, true, false, false]).stock = 4 :=
  (purchase_race_exactly_one_success [true, true, false, false]).2.2
    (by decide) (by decide)

/-! ### C3: cache TTL -/

/-- C3: get-after-set does return the value immediately, but the second
half of the claim fails: the entry never expires, because the underlying
Map ignores the TTL argument of set and get makes no staleness check.
With an entry written at time 0 with TTL 100 ms, a read at ANY later
instant — including 150 ms, past the TTL — still returns the value
instead of the claimed miss. -/
theorem cache_entry_never_expires :
    ∀ now : Nat,
      JsMap.getAtTime
        (JsMap.set JsMap.empty "session:key" (UserCacheVal.natVal 42) 100)
        "session:key" now =
      some (UserCacheVal.natVal 42) := by
  intro now
  rfl

/-! ### C4: password hash in the read-by-id response -/

/-- The stored user of the C4 and C10 scenarios. -/
def johnUser : UserDoc :=
  ⟨"64a0f1e2b3c4d5e6f7a8b9c0", some "John Doe", some "john@example.com",
   bcryptHash "correct-horse", "active"⟩

/-- C4: the read-by-id endpoint can return the stored password hash.  A
login attempt for john at example dot com (even with a wrong password)
caches the FULL user document under key user:john@example.com; a
subsequent GET /api/users/:id with the id string equal to that email hits
the same cache key and returns the raw document, password hash included —
the projection only runs on the cache-miss path. -/
theorem getUserById_returns_password_hash :
    (login [johnUser] JsMap.empty "john@example.com" "wrong-password").1 =
      .unauthorized ∧
    (getUserById [johnUser]
        (login [johnUser] JsMap.empty "john@example.com" "wrong-password").2
        "john@example.com").1 =
      .ok (.fullUser johnUser) ∧
    UserCacheVal.hasPassword (.fullUser johnUser) = true := by
  refine ⟨?_, ?_, rfl⟩ <;> rfl

/-! ### C5: cached product list -/

/-- The seeded product of the C5 scenario. -/
def laptopProduct : Product := ⟨"p1", "Laptop", 999, "electronics", 50, ""⟩

/-- C5: the cache-hit path of GET /api/products is NOT observationally
equivalent to the miss path.  The miss path returns the 200 envelope and
caches the wrapper object; the identical repeated request hits the cache,
binds the wrapper to the variable the handler then treats as an array, and
the products.forEach call throws a TypeError that surfaces as a 500 —
every cache hit of this route fails. -/
theorem getProducts_repeat_differs :
    (getProducts [laptopProduct] JsMap.empty none 1 10 "name" "asc").1 =
      .ok [laptopProduct] 1 10 (some 1) (some 1) ∧
    (getProducts [laptopProduct]
        (getProducts [laptopProduct] JsMap.empty none 1 10 "name" "asc").2
        none 1 10 "name" "asc").1 =
      .typeErr "products.forEach is not a function" ∧
    (getProducts [laptopProduct] JsMap.empty none 1 10 "name" "asc").1 ≠
      (getProducts [laptopProduct]
        (getProducts [laptopProduct] JsMap.empty none 1 10 "name" "asc").2
        none 1 10 "name" "asc").1 := by
  have h1 : (getProducts [laptopProduct] JsMap.empty none 1 10 "name" "asc").1 =
      .ok [laptopProduct] 1 10 (some 1) (some 1) := by
    simp [getProducts, JsMap.empty, JsMap.get, queryProducts, countProducts,
      matchesCategory, productsCacheKey]
  have h2 : (getProducts [laptopProduct]
      (getProducts [laptopProduct] JsMap.empty none 1 10 "name" "asc").2
      none 1 10 "name" "asc").1 =
      .typeErr "products.forEach is not a function" := by
    simp [getProducts, JsMap.empty, JsMap.get, JsMap.set, queryProducts,
      countProducts, matchesCategory, productsCacheKey]
  refine ⟨h1, h2, ?_⟩
  rw [h1, h2]
  exact fun h => GetProductsResult.noConfusion h

/-! ### C6: payment failure in order creation -/

/-- C6: when the simulated payment step of POST /api/orders fails, the
request returns the 400 "Payment processing failed" response, the
orders_failed_total counter is incremented by one, and the orders
collection is unchanged: the insertOne only runs after a successful
payment.  The hypotheses put the request on the payment step: a non-empty
valid payload, a found user, and an item loop that resolved every product
with sufficient stock. -/
theorem createOrder_payment_failed_not_persisted (orders : List OrderDoc)
    (metrics : OrderMetrics) (newId uid : String)
    (l : List OrderItemReq) (pm : Option String)
    (productFetch : String → Option Product)
    (lines : List OrderItem) (total : Int)
    (huid : uid ≠ "") (hl : l ≠ [])
    (hitems : buildOrderItems productFetch l = .ok (lines, total)) :
    createOrder orders metrics newId (some uid) (some l) pm true
        productFetch false =
      (.paymentFailed, orders,
       { metrics with ordersFailed := metrics.ordersFailed + 1 }) := by
  simp [createOrder, huid, hl, hitems]

/-- The product used by the C6 witness scenario. -/
def headphonesProduct : Product :=
  ⟨"651234567890123456789103", "Headphones", 199, "electronics", 200, ""⟩

/-- C6 witness: a concrete one-item order whose payment fails is rejected
with the payment error, persists nothing, and bumps only the failure
counter. -/
theorem createOrder_payment_failed_not_persisted_witness :
    createOrder [] ⟨0, 0, 0⟩ "o1" (some "u1")
        (some [⟨"651234567890123456789103", 2⟩]) none true
        (fun pid => if pid = "651234567890123456789103" then
          some headphonesProduct else none) false =
      (.paymentFailed, [], ⟨0, 1, 0⟩) :=
  createOrder_payment_failed_not_persisted [] ⟨0, 0, 0⟩ "o1" "u1"
    [⟨"651234567890123456789103", 2⟩] none
    (fun pid => if pid = "651234567890123456789103" then
      some headphonesProduct else none)
    [⟨"651234567890123456789103", "Headphones", 199, 2, 398⟩] 398
    (by decide) (by decide) (by rfl)

/-! ### C7: duplicate-email registration -/

/-- C7: a registration whose email equals a stored user's email is
rejected with the Conflict response (400 "User already exists") and the
users collection is unchanged; a registration with an email no stored
user has (and a present password — a valid payload) succeeds and appends
exactly the one new document. -/
theorem register_email_uniqueness (users : List UserDoc) (newId : String)
    (name : Option String) (email : Option String) (pw : String) :
    ((∃ u ∈ users, u.email = email) →
      register users newId name email (some pw) = (.userExists, users)) ∧
    ((∀ u ∈ users, u.email ≠ email) →
      register users newId name email (some pw) =
        (.created newId,
         users ++ [⟨newId, name, email, bcryptHash pw, "active"⟩])) := by
  constructor
  · rintro ⟨u, hu, he⟩
    have hsome : (findUserByEmail users email).isSome := by
      unfold findUserByEmail
      rw [List.find?_isSome]
      exact ⟨u, hu, by simp [he]⟩
    rcases Option.isSome_iff_exists.mp hsome with ⟨u', hu'⟩
    simp [register, hu']
  · intro hall
    have hnone : findUserByEmail users email = none := by
      unfold findUserByEmail
      rw [List.find?_eq_none]
      intro u hu
      simpa using hall u hu
    simp [register, hnone]

/-- The stored user of the C7 witness scenario. -/
def firstUser : UserDoc :=
  ⟨"651234567890123456789001", some "John Doe", some "john@example.com",
   bcryptHash "pw0", "active"⟩

/-- C7 witness: with john already stored, registering john's email again
is the Conflict rejection and inserts nothing, while registering jane's
fresh email succeeds and appends her document. -/
theorem register_email_uniqueness_witness :
    register [firstUser] "651234567890123456789002" (some "Jane Smith")
        (some "john@example.com") (some "pw1") =
      (.userExists, [firstUser]) ∧
    register [firstUser] "651234567890123456789002" (some "Jane Smith")
        (some "jane@example.com") (some "pw1") =
      (.created "651234567890123456789002",
       [firstUser,
        ⟨"651234567890123456789002", some "Jane Smith",
         some "jane@example.com", bcryptHash "pw1", "active"⟩]) :=
  ⟨(register_email_uniqueness [firstUser] "651234567890123456789002"
      (some "Jane Smith") (some "john@example.com") "pw1").1 (by decide),
   (register_email_uniqueness [firstUser] "651234567890123456789002"
      (some "Jane Smith") (some "jane@example.com") "pw1").2 (by decide)⟩

/-! ### C8: required-field validation on Create -/

/-- C8 counterexample: POST /api/users/register performs no required-field
validation at all.  A registration request missing the required name field
is not rejected with a 400 ValidationError listing the missing fields — it
succeeds with 201 and persists a document without a name. -/
theorem register_missing_name_still_persists :
    register [] "u1" none (some "a@b.c") (some "pw") =
      (.created "u1", [⟨"u1", none, some "a@b.c", bcryptHash "pw", "active"⟩]) := by
  rfl

/-- C8 (amended): only POST /api/products validates required fields, and
its rejection is the constant 400 body "Missing required fields" (the
`missingFields` result), which names no field; nothing is persisted on
that path.  (User registration, the other Create, validates nothing: see
the counterexample.) -/
theorem createProduct_missing_required_fields (products : List Product)
    (newId : String) (name : Option String) (price : Option Int)
    (category : Option String) (stock : Option Int) (descr : Option String)
    (h : name = none ∨ name = some "" ∨ price = none ∨ price = some 0 ∨
      category = none ∨ category = some "") :
    createProduct products newId name price category stock descr =
      (.missingFields, products) := by
  rcases name with _ | n <;> rcases price with _ | pr <;>
    rcases category with _ | c <;> simp_all [createProduct]

/-- C8 witness: a product create request missing its name is rejected
with the fixed missing-fields response and persists nothing. -/
theorem createProduct_missing_required_fields_witness :
    createProduct [] "p9" none (some 5) (some "electronics") none none =
      (.missingFields, []) :=
  createProduct_missing_required_fields [] "p9" none (some 5)
    (some "electronics") none none (Or.inl rfl)

/-! ### C9: order-service health ignores peers -/

/-- C9: whenever the local database ping succeeds, the order service's
GET /health reports top-level status "healthy" with HTTP 200 regardless of
either peer's reachability; a peer's reachability changes only its own
entry in the dependencies object. -/
theorem orderHealth_status_ignores_peers :
    ∀ userPeer productPeer : Bool,
      (orderHealth true userPeer productPeer).status = "healthy" ∧
      (orderHealth true userPeer productPeer).httpStatus = 200 ∧
      (orderHealth true userPeer productPeer).userService =
        some (peerStatus userPeer) ∧
      (orderHealth true userPeer productPeer).productService =
        some (peerStatus productPeer) := by
  decide

/-! ### C10: failed login populates the cache -/

/-- C10: a login whose email matches a stored user but whose password is
wrong still writes the FULL user document (password hash included) into
the cache under key user:(email) before the password check, returns 401,
and a subsequent read of that key observes the cached document. -/
theorem login_wrong_password_caches_full_doc (users : List UserDoc)
    (cache : JsMap UserCacheVal) (email password : String) (u : UserDoc)
    (hmiss : cache.get (String.append "user:" email) = none)
    (hfind : findUserByEmail users (some email) = some u)
    (hpw : bcryptCompare password u.password = false) :
    login users cache email password =
      (.unauthorized,
       cache.set (String.append "user:" email) (.fullUser u) 300000) ∧
    (cache.set (String.append "user:" email) (.fullUser u) 300000).get
        (String.append "user:" email) = some (.fullUser u) := by
  refine ⟨?_, JsMap.get_set cache _ _ _⟩
  simp [login, hmiss, hfind, hpw]

/-- C10 witness: a concrete wrong-password login for john returns 401 and
leaves the full document cached under user:john@example.com, where a
subsequent cache read observes it. -/
theorem login_wrong_password_caches_full_doc_witness :
    login [johnUser] JsMap.empty "john@example.com" "wrong-password" =
      (.unauthorized,
       JsMap.set JsMap.empty "user:john@example.com"
         (UserCacheVal.fullUser johnUser) 300000) ∧
    (JsMap.set JsMap.empty "user:john@example.com"
        (UserCacheVal.fullUser johnUser) 300000).get
      "user:john@example.com" = some (.fullUser johnUser) :=
  login_wrong_password_caches_full_doc [johnUser] JsMap.empty
    "john@example.com" "wrong-password" johnUser (by rfl) (by rfl)
    (by decide)

end MonStack
